import Mathlib

/-!
Verification of the WebGPU-Game repository (a single hard-coded triangle demo).

The development shallowly embeds the two source files:
  * `src/src/shaders/shader.wgsl` — the WGSL shader module with entry points
    `vertexMain` and `fragmentMain`;
  * `src/src/main.ts` — the host-side `Renderer` class that acquires a device,
    builds a pipeline, uploads two vertex buffers and submits one render pass.

32-bit floats are modelled as rationals (every literal in the source is exactly
representable), GPU objects as concrete Lean structures, and side effects of the
host program as an explicit event trace.
-/

namespace WebGPUTriangle

/-- A WGSL `vec2f` (two 32-bit floats, modelled as rationals). -/
structure Vec2 where
  x : ℚ
  y : ℚ
deriving DecidableEq, Repr

/-- A WGSL `vec4f`. -/
structure Vec4 where
  x : ℚ
  y : ℚ
  z : ℚ
  w : ℚ
deriving DecidableEq, Repr

/-- The WGSL constructor `vec4f(p, z, w)` building a vec4f from a vec2f and two scalars. -/
def vec4ofVec2 (p : Vec2) (z w : ℚ) : Vec4 :=
  ⟨p.x, p.y, z, w⟩

/-- The local array `pos` of `vertexMain` in shader.wgsl lines 19-23:
three vec2f vertices (top center, bottom left, bottom right). -/
def shaderPos : List Vec2 :=
  [⟨0, 1/2⟩, ⟨-(1/2), -(1/2)⟩, ⟨1/2, -(1/2)⟩]

/-- The vertex shader entry point `vertexMain` of shader.wgsl (lines 16-37):
given the builtin `vertex_index` it returns `vec4f(pos[vertexIndex], 0.0, 1.0)`.
The dynamic array access is embedded as a fallible lookup, so an out-of-bounds
index yields `none`. -/
def vertexMain (vertexIndex : ℕ) : Option Vec4 :=
  (shaderPos.get? vertexIndex).map (fun p => vec4ofVec2 p 0 1)

/-- The fragment shader entry point `fragmentMain` of shader.wgsl (lines 49-53):
it takes no parameters and returns `vec4f(1.0, 0.0, 0.0, 1.0)` (opaque red). -/
def fragmentMain : Vec4 :=
  ⟨1, 0, 0, 1⟩

/-- The per-vertex inputs that the pipeline of main.ts could deliver to a vertex
shader invocation: the builtin `vertex_index`, a float32x2 attribute at shader
location 0 (fetched from buffer slot 0) and a float32x3 attribute at shader
location 1 (fetched from buffer slot 1).  The WGSL entry point `vertexMain`
declares only the `vertex_index` builtin, so it reads neither attribute. -/
structure VertexInputs where
  vertexIndex : ℕ
  attr0 : ℚ × ℚ
  attr1 : ℚ × ℚ × ℚ
deriving DecidableEq, Repr

/-- `vertexMain` viewed as a full pipeline vertex stage invocation: of all the
available inputs it uses only the `vertex_index` builtin, exactly as its WGSL
signature declares. -/
def vertexMainEntry (inp : VertexInputs) : Option Vec4 :=
  vertexMain inp.vertexIndex

/-- The inputs available in principle to a fragment shader invocation (the
builtin fragment position).  The WGSL entry point `fragmentMain` declares no
parameters, so it reads none of them. -/
structure FragmentInputs where
  fragPosition : Vec4
deriving DecidableEq, Repr

/-- `fragmentMain` viewed as a full fragment stage invocation: the WGSL function
has an empty parameter list, so the invocation ignores all pipeline inputs. -/
def fragmentMainEntry (_inp : FragmentInputs) : Vec4 :=
  fragmentMain

/-- Attribute fetch for vertex `i` as configured by `prepareModel` in main.ts:
buffer slot 0 has arrayStride 8 bytes (2 floats) feeding a float32x2 attribute
at offset 0, and buffer slot 1 has arrayStride 12 bytes (3 floats) feeding a
float32x3 attribute at offset 0, both with stepMode vertex.  Out-of-range
fetches produce the zero default. -/
def fetchVertexInputs (positionData colorsData : List ℚ) (i : ℕ) : VertexInputs :=
  { vertexIndex := i
    attr0 := (positionData.getD (2 * i) 0, positionData.getD (2 * i + 1) 0)
    attr1 := (colorsData.getD (3 * i) 0, colorsData.getD (3 * i + 1) 0,
              colorsData.getD (3 * i + 2) 0) }

/-! Host-side model of main.ts. -/

/-- The `GPUBufferUsage.VERTEX` flag of the WebGPU API. -/
def GPUBufferUsage.VERTEX : ℕ := 32

/-- The `GPUBufferUsage.COPY_DST` flag of the WebGPU API. -/
def GPUBufferUsage.COPY_DST : ℕ := 8

/-- `Float32Array.BYTES_PER_ELEMENT`. -/
def BYTES_PER_ELEMENT : ℕ := 4

/-- A `Float32Array` is modelled as its list of (exactly representable) values;
its `byteLength` is four bytes per element. -/
def byteLengthF32 (data : List ℚ) : ℕ :=
  BYTES_PER_ELEMENT * data.length

/-- A GPU buffer: its byte size, usage flags, map state and logical contents
as 32-bit floats.  A freshly created buffer is zero-filled. -/
structure GPUBuffer where
  size : ℕ
  usage : ℕ
  mapped : Bool
  contents : List ℚ
deriving DecidableEq, Repr

/-- `device.createBuffer` of the WebGPU API: a buffer of the requested size and
usage, mapped iff `mappedAtCreation`, with zero-initialised contents. -/
def deviceCreateBuffer (size usage : ℕ) (mappedAtCreation : Bool) : GPUBuffer :=
  { size := size, usage := usage, mapped := mappedAtCreation,
    contents := List.replicate (size / BYTES_PER_ELEMENT) 0 }

/-- The `new Float32Array(buffer.getMappedRange()).set(data)` step of
`createBuffer` (main.ts line 64): overwrite the first `data.length` elements of
the mapped contents with `data`. -/
def setMappedRange (buffer : GPUBuffer) (data : List ℚ) : GPUBuffer :=
  { buffer with contents := data ++ buffer.contents.drop data.length }

/-- `buffer.unmap()` (main.ts line 65). -/
def GPUBuffer.unmap (buffer : GPUBuffer) : GPUBuffer :=
  { buffer with mapped := false }

/-- `Renderer.createBuffer` (main.ts lines 57-68): create a buffer of size
`data.byteLength` with usage `VERTEX | COPY_DST` mapped at creation, write
`data` into the mapped range, unmap, and return it. -/
def Renderer.createBuffer (data : List ℚ) : GPUBuffer :=
  let buffer := deviceCreateBuffer (byteLengthF32 data)
    (Nat.lor GPUBufferUsage.VERTEX GPUBufferUsage.COPY_DST) true
  (setMappedRange buffer data).unmap

/-- A logical GPU device handle (opaque). -/
def GPUDevice := Unit
deriving DecidableEq, Repr

/-- The alpha mode passed to `context.configure` in main.ts. -/
inductive GPUAlphaMode
  | premultiplied
deriving DecidableEq, Repr

/-- The texture format used throughout main.ts: always the value of
`navigator.gpu.getPreferredCanvasFormat()`. -/
inductive GPUTextureFormat
  | preferredCanvasFormat
deriving DecidableEq, Repr

/-- A `webgpu` canvas context with its configuration, if any. -/
structure GPUCanvasContext where
  configured : Option (GPUTextureFormat × GPUAlphaMode)
deriving DecidableEq, Repr

/-- A vertex format mentioned in `prepareModel`. -/
inductive GPUVertexFormat
  | float32x2
  | float32x3
deriving DecidableEq, Repr

/-- A vertex attribute of a `GPUVertexBufferLayout`. -/
structure GPUVertexAttribute where
  shaderLocation : ℕ
  offset : ℕ
  format : GPUVertexFormat
deriving DecidableEq, Repr

/-- The step mode of a vertex buffer layout (main.ts uses only `vertex`). -/
inductive GPUVertexStepMode
  | vertex
deriving DecidableEq, Repr

/-- A `GPUVertexBufferLayout` as built in `prepareModel`. -/
structure GPUVertexBufferLayout where
  arrayStride : ℕ
  attributes : List GPUVertexAttribute
  stepMode : GPUVertexStepMode
deriving DecidableEq, Repr

/-- `positionBufferLayout` of main.ts lines 78-86. -/
def positionBufferLayout : GPUVertexBufferLayout :=
  { arrayStride := 2 * BYTES_PER_ELEMENT
    attributes := [{ shaderLocation := 0, offset := 0, format := .float32x2 }]
    stepMode := .vertex }

/-- `colorBufferLayout` of main.ts lines 88-96. -/
def colorBufferLayout : GPUVertexBufferLayout :=
  { arrayStride := 3 * BYTES_PER_ELEMENT
    attributes := [{ shaderLocation := 1, offset := 0, format := .float32x3 }]
    stepMode := .vertex }

/-- The primitive topology (main.ts line 119 uses `triangle-list`). -/
inductive GPUPrimitiveTopology
  | triangleList
deriving DecidableEq, Repr

/-- A render pipeline handle recording the configuration passed to
`createRenderPipeline` in `prepareModel` (main.ts lines 114-122). -/
structure GPURenderPipeline where
  vertexBuffers : List GPUVertexBufferLayout
  fragmentTargetFormat : GPUTextureFormat
  topology : GPUPrimitiveTopology
deriving DecidableEq, Repr

/-- The pipeline built by `prepareModel`. -/
def thePipeline : GPURenderPipeline :=
  { vertexBuffers := [positionBufferLayout, colorBufferLayout]
    fragmentTargetFormat := .preferredCanvasFormat
    topology := .triangleList }

/-- `loadOp` values of a color attachment. -/
inductive GPULoadOp
  | clear
  | load
deriving DecidableEq, Repr

/-- `storeOp` values of a color attachment. -/
inductive GPUStoreOp
  | store
  | discard
deriving DecidableEq, Repr

/-- An rgba clear value. -/
structure GPUColor where
  r : ℚ
  g : ℚ
  b : ℚ
  a : ℚ
deriving DecidableEq, Repr

/-- A color attachment of the render pass descriptor. -/
structure GPUColorAttachment where
  clearValue : GPUColor
  loadOp : GPULoadOp
  storeOp : GPUStoreOp
deriving DecidableEq, Repr

/-- The `GPURenderPassDescriptor` built in `prepareModel` (main.ts lines
135-144). -/
structure GPURenderPassDescriptor where
  colorAttachments : List GPUColorAttachment
deriving DecidableEq, Repr

/-- The render pass descriptor literal of main.ts lines 135-144. -/
def theRenderPassDescriptor : GPURenderPassDescriptor :=
  { colorAttachments :=
      [{ clearValue := { r := 3/10, g := 3/10, b := 23/100, a := 1 }
         loadOp := .clear
         storeOp := .store }] }

/-- The six private fields of the `Renderer` class (main.ts lines 6-15). -/
inductive FieldName
  | context
  | device
  | pipeline
  | positionBuffer
  | colorsBuffer
  | renderPassDescriptor
deriving DecidableEq, Repr, Fintype

/-- An observable step of the host program: a WebGPU API call, an assignment to
a `Renderer` field, or the alert of the failure path. -/
inductive Event
  | getContext
  | alert
  | requestAdapter
  | requestDevice
  | configureContext
  | createShaderModule
  | createRenderPipeline
  | getCurrentTexture
  | createBuffer (size : ℕ)
  | assignField (f : FieldName)
  | createCommandEncoder
  | beginRenderPass
  | setPipeline
  | setVertexBuffer (slot : ℕ)
  | draw (vertexCount : ℕ)
  | endPass
  | finishEncoder
  | submit (nBuffers : ℕ)
deriving DecidableEq, Repr

/-- The `Renderer` object state: each field is `none` until assigned (the TS
fields are declared with definite-assignment assertions and start undefined). -/
structure Renderer where
  context : Option GPUCanvasContext
  device : Option GPUDevice
  pipeline : Option GPURenderPipeline
  positionBuffer : Option GPUBuffer
  colorsBuffer : Option GPUBuffer
  renderPassDescriptor : Option GPURenderPassDescriptor
deriving DecidableEq, Repr

/-- `new Renderer()` — the constructor assigns nothing. -/
def Renderer.new : Renderer :=
  ⟨none, none, none, none, none, none⟩

/-- The browser environment: whether `canvas.getContext('webgpu')` succeeds. -/
structure Env where
  webgpuSupported : Bool
deriving DecidableEq, Repr

/-- The data of the `positionBuffer` upload (main.ts lines 39-43). -/
def positionData : List ℚ :=
  [-(1/2), -(1/2), 1/2, -(1/2), 0, 1/2]

/-- The data of the `colorsBuffer` upload (main.ts lines 45-49). -/
def colorsData : List ℚ :=
  [1, 0, 0, 0, 1, 0, 0, 0, 1]

/-- `Renderer.prepareModel` (main.ts lines 70-154): compile the shader module,
build the pipeline, assign it, build the render pass descriptor from the
current canvas texture and assign it. -/
def Renderer.prepareModel (r : Renderer) : Renderer × List Event :=
  ({ r with pipeline := some thePipeline
            renderPassDescriptor := some theRenderPassDescriptor },
   [.createShaderModule, .createRenderPipeline, .assignField .pipeline,
    .getCurrentTexture, .assignField .renderPassDescriptor])

/-- `Renderer.initialize` (main.ts lines 18-50), named `initRenderer` here:
acquire the `webgpu` context and store it; if it is null, alert and return
early; otherwise request an adapter and device, configure the context, run
`prepareModel`, then create and assign the two vertex buffers. -/
def Renderer.initRenderer (env : Env) (r : Renderer) : Renderer × List Event :=
  let ctx : Option GPUCanvasContext :=
    if env.webgpuSupported then some { configured := none } else none
  let r1 := { r with context := ctx }
  match ctx with
  | none =>
      (r1, [.getContext, .assignField .context, .alert])
  | some c =>
      let r2 := { r1 with device := some () }
      let c2 := { c with configured := some (.preferredCanvasFormat, .premultiplied) }
      let r3 := { r2 with context := some c2 }
      let (r4, pmEvents) := r3.prepareModel
      let pb := Renderer.createBuffer positionData
      let r5 := { r4 with positionBuffer := some pb }
      let cb := Renderer.createBuffer colorsData
      let r6 := { r5 with colorsBuffer := some cb }
      (r6, [.getContext, .assignField .context, .requestAdapter, .requestDevice,
            .assignField .device, .configureContext]
           ++ pmEvents
           ++ [.createBuffer pb.size, .assignField .positionBuffer,
               .createBuffer cb.size, .assignField .colorsBuffer])

/-- The commands encoded and submitted by each `render` call (main.ts lines
167-205), in program order. -/
def renderCommandTrace : List Event :=
  [.createCommandEncoder, .beginRenderPass, .setPipeline,
   .setVertexBuffer 0, .setVertexBuffer 1, .draw 3,
   .endPass, .finishEncoder, .submit 1]

/-- `Renderer.render` (main.ts lines 157-207): create a command encoder, begin
the render pass, set the pipeline, bind the two vertex buffers at slots 0 and
1, draw 3 vertices, end the pass, finish the encoder and submit the single
command buffer.  It reads the fields but assigns none of them; if a required
field is still undefined, the TS code would throw, modelled as `none`. -/
def Renderer.render (r : Renderer) : Option (Renderer × List Event) :=
  match r.device, r.renderPassDescriptor, r.pipeline,
        r.positionBuffer, r.colorsBuffer with
  | some _, some _, some _, some _, some _ => some (r, renderCommandTrace)
  | _, _, _, _, _ => none

/-- The whole-program run of main.ts lines 215-219: construct the renderer,
run `initialize`, then (once its promise resolves) call `render`. -/
def runProgram (env : Env) : Option (Renderer × List Event) :=
  let p := Renderer.initRenderer env Renderer.new
  match p.1.render with
  | some q => some (q.1, p.2 ++ q.2)
  | none => none

/-- The result of a successful `initialize` on a WebGPU-capable browser. -/
def initRun : Renderer × List Event :=
  Renderer.initRenderer ⟨true⟩ Renderer.new

/-- The event trace of the complete successful program run. -/
def successTrace : List Event :=
  match runProgram ⟨true⟩ with
  | some q => q.2
  | none => []

/-- The spec phase of an event: 0 = device/context acquisition, 1 = shader
module compilation, 2 = pipeline construction, 3 = static buffer upload,
4 = render-pass encode-and-submit; `none` for steps outside the five phases
(field assignments, texture view creation, the alert). -/
def stepRank : Event → Option ℕ
  | .getContext => some 0
  | .requestAdapter => some 0
  | .requestDevice => some 0
  | .configureContext => some 0
  | .createShaderModule => some 1
  | .createRenderPipeline => some 2
  | .createBuffer _ => some 3
  | .createCommandEncoder => some 4
  | .beginRenderPass => some 4
  | .setPipeline => some 4
  | .setVertexBuffer _ => some 4
  | .draw _ => some 4
  | .endPass => some 4
  | .finishEncoder => some 4
  | .submit _ => some 4
  | _ => none

/-- `stepBefore e1 e2` holds when both events belong to one of the five spec
phases and the phase of `e1` is strictly earlier than that of `e2`. -/
def stepBefore (e1 e2 : Event) : Bool :=
  match stepRank e1, stepRank e2 with
  | some a, some b => a < b
  | _, _ => false

/-- Does the event create a GPU buffer? -/
def isBufferCreation : Event → Bool
  | .createBuffer _ => true
  | _ => false

/-- Is the event a draw call? -/
def isDraw : Event → Bool
  | .draw _ => true
  | _ => false

/-- Is the event a queue submission? -/
def isSubmit : Event → Bool
  | .submit _ => true
  | _ => false

/-- Iterate `render` from a state `n` times, threading the returned state. -/
def renderIter : ℕ → Renderer → Renderer
  | 0, r => r
  | n + 1, r =>
      match r.render with
      | some q => renderIter n q.1
      | none => r

/-- C1: every fragment shader invocation returns the fixed color
`vec4f(1.0, 0.0, 0.0, 1.0)`, and the result does not depend on any input:
any two invocations produce the same value. -/
theorem c1_fragmentMain_constant :
    (∀ inp : FragmentInputs, fragmentMainEntry inp = ⟨1, 0, 0, 1⟩) ∧
    (∀ a b : FragmentInputs, fragmentMainEntry a = fragmentMainEntry b) := by
  refine ⟨fun _ => rfl, fun _ _ => rfl⟩

/-- C2: for vertex indices 0, 1 and 2 the vertex shader returns
`vec4f(p_i, 0.0, 1.0)` with p_0 = (0.0, 0.5), p_1 = (-0.5, -0.5),
p_2 = (0.5, -0.5). -/
theorem c2_vertexMain_values :
    vertexMain 0 = some ⟨0, 1/2, 0, 1⟩ ∧
    vertexMain 1 = some ⟨-(1/2), -(1/2), 0, 1⟩ ∧
    vertexMain 2 = some ⟨1/2, -(1/2), 0, 1⟩ := by
  refine ⟨rfl, rfl, rfl⟩

/-- C3: the contents of the two vertex buffers never influence the shader
outputs: for any two fillings of the position and colors buffers, every vertex
invocation and every fragment invocation produce identical results, since
neither entry point reads a vertex attribute. -/
theorem c3_buffers_no_influence :
    (∀ p1 c1 p2 c2 : List ℚ, ∀ i : ℕ,
      vertexMainEntry (fetchVertexInputs p1 c1 i) =
        vertexMainEntry (fetchVertexInputs p2 c2 i)) ∧
    (∀ a b : FragmentInputs, fragmentMainEntry a = fragmentMainEntry b) := by
  refine ⟨fun _ _ _ _ _ => rfl, fun _ _ => rfl⟩

/-- C9: under the precondition that the draw call supplies vertex count 3, the
index `vertexIndex` ranges over 0, 1, 2 only, and the access `pos[vertexIndex]`
is always in bounds of the 3-element array: the lookup (and hence `vertexMain`)
always succeeds. -/
theorem c9_index_in_bounds (i : ℕ) (h : i < 3) :
    (shaderPos.get? i).isSome = true ∧ (vertexMain i).isSome = true := by
  interval_cases i <;> exact ⟨rfl, rfl⟩

/-- Witness for C9 at the concrete index 2. -/
theorem c9_index_in_bounds_witness :
    (shaderPos.get? 2).isSome = true ∧ (vertexMain 2).isSome = true :=
  c9_index_in_bounds 2 (by decide)

/-- The result of `initialize` when the `webgpu` context is unavailable. -/
def failRun : Renderer × List Event :=
  Renderer.initRenderer ⟨false⟩ Renderer.new

/-- C4: when acquiring the `webgpu` canvas context yields null, `initialize`
raises exactly one alert and returns early: the renderer state is unchanged
from the freshly constructed one, and no adapter request, device request,
shader compilation, pipeline construction or buffer creation occurs. -/
theorem c4_single_error_branch :
    failRun.1 = Renderer.new ∧
    failRun.2.count Event.alert = 1 ∧
    failRun.2.count Event.requestAdapter = 0 ∧
    failRun.2.count Event.requestDevice = 0 ∧
    failRun.2.count Event.createShaderModule = 0 ∧
    failRun.2.count Event.createRenderPipeline = 0 ∧
    failRun.2.countP (fun e => isBufferCreation e) = 0 := by
  decide

/-- C5: in the complete successful run, whenever an event of an earlier spec
phase (device/context acquisition, then shader compilation, then pipeline
construction, then buffer uploads, then render-pass encode-and-submit) is
compared with an event of a strictly later phase, the earlier-phase event
occurs at a strictly smaller position of the trace: no step ever occurs before
a prior step of the sequence. -/
theorem c5_linear_phase_order :
    ∀ i j : Fin successTrace.length,
      stepBefore (successTrace.get i) (successTrace.get j) = true →
      (i : ℕ) < (j : ℕ) := by
  decide

/-- Witness for C5 at a concrete pair of positions: position 0 holds the
context acquisition and position 6 the shader module compilation. -/
theorem c5_linear_phase_order_witness :
    stepBefore (successTrace.get ⟨0, by decide⟩) (successTrace.get ⟨6, by decide⟩)
      = true ∧ (0 : ℕ) < 6 :=
  ⟨by decide, c5_linear_phase_order ⟨0, by decide⟩ ⟨6, by decide⟩ (by decide)⟩

/-- C6: after a successful `initialize`, each of the six renderer fields holds
a value and was assigned exactly once during the run, `render` succeeds from
that state without assigning any field, and any number of `render` calls
leaves the state unchanged. -/
theorem c6_fields_write_once :
    initRun.1.context.isSome = true ∧
    initRun.1.device.isSome = true ∧
    initRun.1.pipeline.isSome = true ∧
    initRun.1.positionBuffer.isSome = true ∧
    initRun.1.colorsBuffer.isSome = true ∧
    initRun.1.renderPassDescriptor.isSome = true ∧
    (∀ f : FieldName, initRun.2.count (Event.assignField f) = 1) ∧
    (∃ evs, initRun.1.render = some (initRun.1, evs) ∧
      ∀ f : FieldName, evs.count (Event.assignField f) = 0) ∧
    (∀ n : ℕ, renderIter n initRun.1 = initRun.1) := by
  refine ⟨rfl, rfl, rfl, rfl, rfl, rfl, by decide, ⟨renderCommandTrace, rfl, by decide⟩, ?_⟩
  have h : initRun.1.render = some (initRun.1, renderCommandTrace) := rfl
  intro n
  induction n with
  | zero => rfl
  | succ n ih => simp [renderIter, h, ih]

/-- C7: every successful call to `render` encodes exactly one draw call, with
vertex count 3, and submits exactly one command buffer to the device queue. -/
theorem c7_one_draw_one_submit (r s : Renderer) (evs : List Event)
    (h : r.render = some (s, evs)) :
    evs.filter (fun e => isDraw e) = [Event.draw 3] ∧
    evs.filter (fun e => isSubmit e) = [Event.submit 1] := by
  unfold Renderer.render at h
  split at h
  · rw [Option.some.injEq, Prod.mk.injEq] at h
    rw [← h.2]
    decide
  · exact Option.noConfusion h

/-- Witness for C7 at the state produced by a successful `initialize`. -/
theorem c7_one_draw_one_submit_witness :
    renderCommandTrace.filter (fun e => isDraw e) = [Event.draw 3] ∧
    renderCommandTrace.filter (fun e => isSubmit e) = [Event.submit 1] :=
  c7_one_draw_one_submit initRun.1 initRun.1 renderCommandTrace rfl

/-- C8: a successful `initialize` performs exactly two buffer creations, and
the two stored buffers both carry usage `VERTEX | COPY_DST`: the position
buffer of 24 bytes holding (-0.5, -0.5, 0.5, -0.5, 0.0, 0.5) and the colors
buffer of 36 bytes holding (1,0,0, 0,1,0, 0,0,1). -/
theorem c8_two_vertex_buffers :
    initRun.2.countP (fun e => isBufferCreation e) = 2 ∧
    initRun.1.positionBuffer = some
      { size := 24
        usage := Nat.lor GPUBufferUsage.VERTEX GPUBufferUsage.COPY_DST
        mapped := false
        contents := [-(1/2), -(1/2), 1/2, -(1/2), 0, 1/2] } ∧
    initRun.1.colorsBuffer = some
      { size := 36
        usage := Nat.lor GPUBufferUsage.VERTEX GPUBufferUsage.COPY_DST
        mapped := false
        contents := [1, 0, 0, 0, 1, 0, 0, 0, 1] } := by
  refine ⟨by decide, rfl, rfl⟩

/-- C10: for every input array, `createBuffer` returns an unmapped buffer
whose size equals the byte length of the input and whose contents equal the
input exactly — a write/read round-trip identity. -/
theorem c10_createBuffer_roundtrip (data : List ℚ) :
    (Renderer.createBuffer data).size = byteLengthF32 data ∧
    (Renderer.createBuffer data).usage =
      Nat.lor GPUBufferUsage.VERTEX GPUBufferUsage.COPY_DST ∧
    (Renderer.createBuffer data).mapped = false ∧
    (Renderer.createBuffer data).contents = data := by
  simp only [Renderer.createBuffer, setMappedRange, GPUBuffer.unmap, deviceCreateBuffer]
  refine ⟨trivial, trivial, trivial, ?_⟩
  have h4 : byteLengthF32 data / BYTES_PER_ELEMENT = data.length := by
    simp [byteLengthF32, BYTES_PER_ELEMENT]
  rw [h4, List.drop_replicate, Nat.sub_self, List.replicate_zero, List.append_nil]

end WebGPUTriangle
